import Mathlib

/-!
Shallow embedding of the MIDAS base node (`midas/node.py`) and proofs
about it.

Numeric samples and timestamps are modelled as rationals (`ℚ`), Python
lists as Lean `List`s, and Python strings as lists of characters
(`PyStr`).  The helper functions of `midas/utilities.py` are not among
the sources; where a definition depends on one of them, the helper is
modelled from the specification text and its doc comment says so.
-/

/-- Python strings, modelled as lists of characters. -/
abbrev PyStr := List Char

/-- Python `str.split(sep)` for a one-character separator:
`"a:b".split(':') = ["a", "b"]`, `"".split(':') = [""]`. -/
def pySplit (sep : Char) : List Char → List (List Char)
  | [] => [[]]
  | c :: cs =>
    if c = sep then [] :: pySplit sep cs
    else
      match pySplit sep cs with
      | [] => [[c]]
      | p :: ps => (c :: p) :: ps

/-- Python `str.replace(a, b)` for one-character patterns: every
occurrence of the character `a` is replaced by `b`. -/
def pyReplace (a b : Char) (s : List Char) : List Char :=
  s.map fun c => if c = a then b else c

/-- Python slice `l[a:b]` for natural `a`, `b` (empty when `b ≤ a`). -/
def pySlice (l : List α) (a b : ℕ) : List α :=
  (l.drop a).take (b - a)

/-- Python `int(q)` on a number: truncation toward zero. -/
def pyInt (q : ℚ) : ℤ :=
  if q < 0 then -⌊-q⌋ else ⌊q⌋

/-- Modelled from the spec: `midas/utilities.py` (function
`get_index_vector`) is not among the sources.  The specification
describes the unwrap index vector of a ring of length `B` with write
index `w` as "if `full`, `[w, w+1, …, B-1, 0, …, w-1]`; else
`[0, …, w-1]`". -/
def get_index_vector (B : ℕ) (full : Bool) (w : ℕ) : List ℕ :=
  if full then (List.range B).map (fun i => (w + i) % B) else List.range w

/-- Modelled from the spec: `midas/utilities.py` (function `find_range`)
is not among the sources.  The specification describes the range
selection of a snapshot as "Compute start/stop indices selecting the
sub-range whose age lies within `[end_offset − duration, end_offset]`
(equivalently between the window bounds after the transform)".
`find_range x w` therefore returns the index of the first element of `x`
lying between the window bounds `w.2` and `w.1` and the index just past
the last such element; when no element lies between the bounds the result
is `(x.length, 0)` and the subsequent slice is empty. -/
def find_range (x : List ℚ) (w : ℚ × ℚ) : ℕ × ℕ :=
  (x.findIdx (fun v => decide (w.2 ≤ v ∧ v ≤ w.1)),
   x.length - x.reverse.findIdx (fun v => decide (w.2 ≤ v ∧ v ≤ w.1)))

/-- Modelled from the spec: `midas/utilities.py` (function
`get_channel_index`) is not among the sources; it returns the position of
a channel name in a list of channel names. -/
def get_channel_index (names : List PyStr) (cn : PyStr) : ℕ :=
  names.findIdx (fun c => c == cn)

/-- The primary-stream parameters of a node: `self.n_channels`,
`self.buffer_size` and `self.sampling_rate` in `node.py`. -/
structure Params where
  n_channels : ℕ
  buffer_size : ℕ
  sampling_rate : ℚ
  deriving DecidableEq

/-- The shared state of the primary ring buffer of `node.py`:
`channel_data`, `time_array`, `last_time`, `wptr` and `buffer_full`,
together with the local sample counter `i` of `receiver` (field
`count`). -/
structure PrimaryState where
  channel_data : List (List ℚ)
  time_array : List ℚ
  last_time : ℚ
  wptr : ℕ
  count : ℕ
  buffer_full : Bool
  deriving DecidableEq

/-- One iteration of the `receiver` loop body (`node.py` lines 316-336)
on a pulled sample `x` with timestamp `t?` (`None` is `none`): write
`x[k]` into slot `wptr` of every channel, synthesize the timestamp as
`last_time + sampling_rate` when it is absent, store it in `time_array`
and `last_time`, advance `wptr` to `i % buffer_size` for the incremented
counter `i`, and raise `buffer_full` once `i` reaches the buffer size. -/
def receiver_step (p : Params) (s : PrimaryState) (x : List ℚ) (t? : Option ℚ) :
    PrimaryState :=
  let cd := (List.range p.n_channels).map fun k =>
    (s.channel_data.getD k []).set s.wptr (x.getD k 0)
  let t := match t? with
    | none => s.last_time + p.sampling_rate
    | some t => t
  let i := s.count + 1
  { channel_data := cd
    time_array := s.time_array.set s.wptr t
    last_time := t
    wptr := i % p.buffer_size
    count := i
    buffer_full := s.buffer_full || decide (p.buffer_size ≤ i) }

/-- The chronologically unwrapped timestamp vector of a primary snapshot
(`node.py` line 425): the copied `time_array` reindexed by the unwrap
index vector. -/
def unwrapTimes (p : Params) (s : PrimaryState) : List ℚ :=
  (get_index_vector p.buffer_size s.buffer_full s.wptr).map fun j =>
    s.time_array.getD j 0

/-- The age transform of a snapshot (`node.py` lines 426-427):
`[abs(i - time_array_copy[-1]) for i in time_array_copy]`. -/
def ageVector (times : List ℚ) : List ℚ :=
  times.map fun v => |v - times.getLastD 0|

/-- Result of `data_snapshot`: the sliced channel data, the sliced age
vector, and the final contents of the caller's `timewindow` list (which
the Python code mutates in place). -/
structure SnapshotResult where
  channel_data : List (List ℚ)
  time_array : List ℚ
  timewindow : ℚ × ℚ
  deriving DecidableEq

/-- `data_snapshot` (`node.py` lines 406-440): copy the ring state,
unwrap it, apply the age transform, overwrite
`timewindow[1] = timewindow[0] - timewindow[1]`, select the index range
for the transformed window and slice the age vector and every channel.
The state copy made under the lock is the argument `s` itself; the
`timewindow` field of the result models the in-place overwrite of the
caller's list. -/
def data_snapshot (p : Params) (s : PrimaryState) (tw : ℚ × ℚ) : SnapshotResult :=
  let ind := get_index_vector p.buffer_size s.buffer_full s.wptr
  let ages := ageVector (unwrapTimes p s)
  let tw' : ℚ × ℚ := (tw.1, tw.1 - tw.2)
  let r := find_range ages tw'
  { channel_data := (List.range p.n_channels).map fun k =>
      pySlice (ind.map fun j => (s.channel_data.getD k []).getD j 0) r.1 r.2
    time_array := pySlice ages r.1 r.2
    timewindow := tw' }

/-- The per-channel body of `data_snapshot_secondary` (`node.py` lines
465-488) on the copied ring of one secondary channel: the same unwrap,
age transform, range selection and slicing as the primary snapshot,
except that the line `timewindow[1] = timewindow[0] - timewindow[1]` is
commented out in the source, so the window is used untransformed. -/
def data_snapshot_secondary_channel (B : ℕ) (data times : List ℚ) (full : Bool)
    (w : ℕ) (tw : ℚ × ℚ) : List ℚ × List ℚ :=
  let ind := get_index_vector B full w
  let ages := ageVector (ind.map fun j => times.getD j 0)
  let r := find_range ages tw
  (pySlice (ind.map fun j => data.getD j 0) r.1 r.2, pySlice ages r.1 r.2)

/-- The shared state of the secondary ring buffers of `node.py`, one
entry per secondary channel. -/
structure SecondaryState where
  channel_data : List (List ℚ)
  time_array : List (List ℚ)
  wptr : List ℕ
  buffer_full : List Bool
  deriving DecidableEq

/-- `data_snapshot_secondary` (`node.py` lines 444-488) over `m`
secondary channels with buffer sizes `Bs`: the per-channel snapshot body
applied to every channel with the caller's window. -/
def data_snapshot_secondary (m : ℕ) (Bs : List ℕ) (s : SecondaryState)
    (tw : ℚ × ℚ) : List (List ℚ) × List (List ℚ) :=
  ((List.range m).map fun i =>
     (data_snapshot_secondary_channel (Bs.getD i 0) (s.channel_data.getD i [])
       (s.time_array.getD i []) (s.buffer_full.getD i false) (s.wptr.getD i 0) tw).1,
   (List.range m).map fun i =>
     (data_snapshot_secondary_channel (Bs.getD i 0) (s.channel_data.getD i [])
       (s.time_array.getD i []) (s.buffer_full.getD i false) (s.wptr.getD i 0) tw).2)

/-- Result of one metric specifier in `analyze_metric`: either the
literal failure string `'unknown metric and/or channel'` or the
invocation of the registered function `name` on the data of `channels`
with the extra parameters, represented symbolically (the registered
functions are user code outside the node). -/
inductive MetricResult where
  | unknown
  | value (name : PyStr) (channels : List PyStr) (extra : List PyStr)
  deriving DecidableEq

/-- Key of a metric specifier in the reply mapping (`node.py` line 603):
the original specifier with every `:` and `,` replaced by `_`. -/
def pyKey (m : PyStr) : PyStr :=
  pyReplace ',' '_' (pyReplace ':' '_' m)

/-- The per-specifier body of `analyze_metric` (`node.py` lines 602-653):
split the specifier on `:`; the metric name is the first field; when a
second field exists it is split on `,` into the channel list and
`channels_found` records whether all named channels are primary or
secondary channel names; a registered name with `channels_found` yields
the symbolic invocation, anything else yields
`MetricResult.unknown`. -/
def analyze_one (metric_names channel_names channel_names_secondary : List PyStr)
    (metric : PyStr) : PyStr × MetricResult :=
  let key := pyKey metric
  let tmp := pySplit ':' metric
  let name := tmp.headD []
  let cf :=
    if 1 < tmp.length then
      let cstr := tmp.getD 1 []
      let channels := if cstr.contains ',' then pySplit ',' cstr else [cstr]
      (channels, channels.all fun c =>
        (channel_names ++ channel_names_secondary).contains c)
    else ([], false)
  if name ∈ metric_names ∧ cf.2 = true then
    (key, .value name cf.1 (tmp.drop 2))
  else
    (key, .unknown)

/-- `analyze_metric` (`node.py` lines 574-655) restricted to the
per-specifier results, in request order.  The Python code accumulates
`results[key]` in a dict, so for a duplicated key the dict keeps the last
entry of this list. -/
def analyze_metric (metric_names channel_names channel_names_secondary : List PyStr)
    (metric_list : List PyStr) : List (PyStr × MetricResult) :=
  metric_list.map (analyze_one metric_names channel_names channel_names_secondary)

/-- Parsed metric name of a specifier: the part before the first `:`. -/
def specName (m : PyStr) : PyStr :=
  (pySplit ':' m).headD []

/-- Parsed channel list of a specifier: the part between the first and
second `:`, split on `,`; empty when the specifier has no `:`. -/
def specChannels (m : PyStr) : List PyStr :=
  match pySplit ':' m with
  | _ :: cstr :: _ => if cstr.contains ',' then pySplit ',' cstr else [cstr]
  | _ => []

/-- The configuration and state of a node that the data and metric
queries read: the `primary_node` and `secondary_data` flags, the stream
parameters, the channel-name and metric-name registries, the secondary
layout, and both ring-buffer states. -/
structure Node where
  primary_node : Bool
  secondary_data : Bool
  params : Params
  channel_names : List PyStr
  channel_names_secondary : List PyStr
  metric_names : List PyStr
  n_channels_secondary : ℕ
  buffer_size_secondary : List ℕ
  pstate : PrimaryState
  sstate : SecondaryState

/-- `get_data` (`node.py` lines 533-568).  Returns the association list
of per-channel results in insertion order (the Python dict keeps the last
entry for a duplicated name) together with the final contents of the
caller's `timewindow` list, which `data_snapshot` mutates in place when
the node is primary and which `data_snapshot_secondary` then receives.
When `primary_node` is false a requested primary channel name would hit
an unassigned local variable in Python; such names produce no entry here
(non-primary nodes cannot be constructed, see `baseNode_init`). -/
def get_data (n : Node) (channel_names : List PyStr) (tw : ℚ × ℚ) :
    List (PyStr × (List ℚ × List ℚ)) × (ℚ × ℚ) :=
  let psnap := if n.primary_node then some (data_snapshot n.params n.pstate tw) else none
  let tw1 := match psnap with
    | some r => r.timewindow
    | none => tw
  let ssnap := if n.secondary_data then
      some (data_snapshot_secondary n.n_channels_secondary n.buffer_size_secondary
        n.sstate tw1)
    else none
  (channel_names.flatMap fun cn =>
    (match psnap with
     | some r =>
       if cn ∈ n.channel_names then
         [(cn, (r.channel_data.getD (get_channel_index n.channel_names cn) [],
                r.time_array))]
       else []
     | none => []) ++
    (match ssnap with
     | some r =>
       if cn ∈ n.channel_names_secondary then
         [(cn, (r.1.getD (get_channel_index n.channel_names_secondary cn) [],
                r.2.getD (get_channel_index n.channel_names_secondary cn) []))]
       else []
     | none => []),
   tw1)

/-- `analyze_metric` including its snapshot prologue (`node.py` lines
585-597): when the node is primary, `data_snapshot` runs first and
mutates the shared `timewindow` list, and `data_snapshot_secondary` then
receives the mutated window.  Returns the per-specifier results, the two
snapshots, and the final contents of the caller's `timewindow`. -/
def analyze_metric_full (n : Node) (metric_list : List PyStr) (tw : ℚ × ℚ) :
    List (PyStr × MetricResult) ×
      (Option SnapshotResult × Option (List (List ℚ) × List (List ℚ))) × (ℚ × ℚ) :=
  let psnap := if n.primary_node then some (data_snapshot n.params n.pstate tw) else none
  let tw1 := match psnap with
    | some r => r.timewindow
    | none => tw
  let ssnap := if n.secondary_data then
      some (data_snapshot_secondary n.n_channels_secondary n.buffer_size_secondary
        n.sstate tw1)
    else none
  (analyze_metric n.metric_names n.channel_names n.channel_names_secondary metric_list,
   (psnap, ssnap), tw1)

/-- Errors a `BaseNode.__init__` call can raise: reading a never-assigned
attribute, or applying an operation to Python `None`. -/
inductive PyError where
  | attributeError (attr : PyStr)
  | typeError
  deriving DecidableEq

/-- Constructor arguments of `BaseNode.__init__` that take part in the
primary/secondary data layout (`node.py` lines 27-51); `none` models a
Python `None` default. -/
structure InitArgs where
  primary_node : Bool
  lsl_stream_name : Option PyStr
  n_channels : Option ℕ
  channel_names : List PyStr
  channel_descriptions : Option (List PyStr)
  sampling_rate : Option ℚ
  buffer_size_s : ℚ
  secondary_data : Bool
  n_channels_secondary : ℕ
  buffer_size_secondary : ℕ
  channel_names_secondary : List PyStr
  channel_descriptions_secondary : Option (List PyStr)
  deriving DecidableEq

/-- The data-layout state assembled by a successful `BaseNode.__init__`.
Primary-only attributes are `none` on the (unreachable) non-primary
path. -/
structure NodeInit where
  primary_node : Bool
  n_channels : Option ℕ
  channel_names : Option (List PyStr)
  channel_descriptions : List PyStr
  sampling_rate : Option ℚ
  buffer_size : Option ℤ
  secondary_data : Bool
  n_channels_secondary : ℕ
  buffer_size_secondary : List ℕ
  channel_names_secondary : List PyStr
  channel_descriptions_secondary : List PyStr
  pstate : Option PrimaryState
  deriving DecidableEq

/-- The data-layout part of `BaseNode.__init__` (`node.py` lines
171-231), with arguments passed directly (the config-dict branch, the
socket/identity fields and the lock and process containers do not touch
the data layout).  On the primary path the attributes of lines 172-179
are assigned, with `buffer_size = int(buffer_size_s * sampling_rate)`
raising a type error when `sampling_rate` is `None`; line 190 then reads
`self.channel_descriptions`, which on the non-primary path was never
assigned, so construction fails with an attribute error; line 191 and the
preallocation of line 221 read `self.n_channels`.  The preallocated
primary buffers of lines 220-227 form the initial `PrimaryState`. -/
def baseNode_init (a : InitArgs) : Except PyError NodeInit :=
  let bss := List.replicate a.n_channels_secondary a.buffer_size_secondary
  let cds2 := match a.channel_descriptions_secondary with
    | none => List.replicate a.n_channels_secondary ([] : PyStr)
    | some v => v
  if a.primary_node then
    match a.sampling_rate with
    | none => .error .typeError
    | some sr =>
      let B : ℤ := pyInt (a.buffer_size_s * sr)
      match a.channel_descriptions, a.n_channels with
      | none, none => .error .typeError
      | none, some nch =>
        .ok { primary_node := true, n_channels := some nch
              channel_names := some a.channel_names
              channel_descriptions := List.replicate nch ([] : PyStr)
              sampling_rate := some sr, buffer_size := some B
              secondary_data := a.secondary_data
              n_channels_secondary := a.n_channels_secondary
              buffer_size_secondary := bss
              channel_names_secondary := a.channel_names_secondary
              channel_descriptions_secondary := cds2
              pstate := some ⟨List.replicate nch (List.replicate B.toNat 0),
                List.replicate B.toNat 0, 0, 0, 0, false⟩ }
      | some cds, nch? =>
        match nch? with
        | none => .error .typeError
        | some nch =>
          .ok { primary_node := true, n_channels := some nch
                channel_names := some a.channel_names
                channel_descriptions := cds
                sampling_rate := some sr, buffer_size := some B
                secondary_data := a.secondary_data
                n_channels_secondary := a.n_channels_secondary
                buffer_size_secondary := bss
                channel_names_secondary := a.channel_names_secondary
                channel_descriptions_secondary := cds2
                pstate := some ⟨List.replicate nch (List.replicate B.toNat 0),
                  List.replicate B.toNat 0, 0, 0, 0, false⟩ }
  else
    .error (.attributeError "channel_descriptions".toList)

set_option allowUnsafeReducibility true

attribute [semireducible] Rat.add Rat.sub Rat.mul Rat.inv

/-- Scenario S3 of the spec: one primary channel, buffer length 3,
sampling rate 2. -/
def paramsS3 : Params := ⟨1, 3, 2⟩

/-- Scenario S3: the primary ring right after the receiver initialised
`last_time` to 0 (`node.py` line 315). -/
def state0S3 : PrimaryState := ⟨[[0, 0, 0]], [0, 0, 0], 0, 0, 0, false⟩

/-- Scenario S3 after the sample `(t=10, x=1)`. -/
def state1S3 : PrimaryState := receiver_step paramsS3 state0S3 [1] (some 10)

/-- Scenario S3 after the further sample `(t=None, x=2)`. -/
def state2S3 : PrimaryState := receiver_step paramsS3 state1S3 [2] none

/-- Scenario S3 after the further sample `(t=None, x=3)`. -/
def state3S3 : PrimaryState := receiver_step paramsS3 state2S3 [3] none

/-- Concrete constructor arguments for the C7 counterexample: a primary
node with one channel, `buffer_size_s = 5/2` seconds and
`sampling_rate = 3` Hz. -/
def argsC7 : InitArgs := ⟨true, none, some 1, [], none, some 3, 5/2, false, 0, 0, [], none⟩

/-- Concrete constructor arguments with `primary_node = false` for C8: a
purely secondary node. -/
def argsC8 : InitArgs := ⟨false, none, none, [], none, none, 30, true, 1, 2, ["s".toList], none⟩

/-- A concrete secondary ring (one channel, buffer length 2, full) used
by the C9 witness. -/
def sstateC9 : SecondaryState := ⟨[[7, 8]], [[1, 2]], [0], [true]⟩

/-- A concrete node with both primary and secondary data used by the C9
witness: primary channel `p` holding the S3 buffer, secondary channel
`s`. -/
def nodeC9 : Node :=
  ⟨true, true, paramsS3, ["p".toList], ["s".toList], ["test".toList], 1, [2],
   state3S3, sstateC9⟩


/-- C1 counterexample: with `sampling_rate = 2`, a sample arriving
without timestamp when `last_time = 10` is stamped
`12 = last_time + sampling_rate`, not `last_time + 1/sampling_rate
= 10 + 1/2`. -/
theorem claim_C1_counterexample :
    (receiver_step ⟨1, 3, 2⟩ ⟨[[0, 0, 0]], [0, 0, 0], 10, 0, 0, false⟩ [5] none).last_time
        = 12 ∧
    (receiver_step ⟨1, 3, 2⟩ ⟨[[0, 0, 0]], [0, 0, 0], 10, 0, 0, false⟩ [5] none).time_array
        = [12, 0, 0] ∧
    (10 : ℚ) + 1 / (2 : ℚ) = 21 / 2 ∧
    ((12 : ℚ) ≠ 21 / 2) := by
  refine ⟨by decide, by decide, by decide, by decide⟩

/-- C1 (amended): when the stream yields a sample with an absent
timestamp, the receiver synthesizes the timestamp as the previous
`last_time` plus `sampling_rate` itself (the source adds the rate, not
its reciprocal): both the slot written in the time array and the new
`last_time` equal `last_time + sampling_rate`. -/
theorem claim_C1 (p : Params) (s : PrimaryState) (x : List ℚ)
    (h : s.wptr < s.time_array.length) :
    (receiver_step p s x none).last_time = s.last_time + p.sampling_rate ∧
    (receiver_step p s x none).time_array.getD s.wptr 0
      = s.last_time + p.sampling_rate := by
  refine ⟨rfl, ?_⟩
  simp [receiver_step, List.getD, List.getElem?_set_self h]

/-- Witness for `claim_C1` at the state of the C1 counterexample. -/
theorem claim_C1_witness :
    ((0 : ℕ) < ([(0 : ℚ), 0, 0]).length) ∧
    ((receiver_step ⟨1, 3, 2⟩ ⟨[[0, 0, 0]], [0, 0, 0], 10, 0, 0, false⟩ [5] none).last_time
        = 10 + 2 ∧
     (receiver_step ⟨1, 3, 2⟩ ⟨[[0, 0, 0]], [0, 0, 0], 10, 0, 0, false⟩ [5] none).time_array.getD 0 0
        = 10 + 2) :=
  ⟨by decide, claim_C1 ⟨1, 3, 2⟩ ⟨[[0, 0, 0]], [0, 0, 0], 10, 0, 0, false⟩ [5] (by decide)⟩

/-- C2 counterexample: in scenario S3 the trace of `last_time` is
`10, 12, 14` as claimed, but the snapshot with timewindow `[0, 10]`
returns the age vector `[0]`, not `[4, 2, 0]`: the range selection keeps
the sub-range of ages lying within
`[end_offset - duration, end_offset] = [-10, 0]`, and of the full age
vector `[4, 2, 0]` only the age `0` lies there. -/
theorem claim_C2_counterexample :
    (state1S3.last_time = 10 ∧ state2S3.last_time = 12 ∧ state3S3.last_time = 14) ∧
    (data_snapshot paramsS3 state3S3 (0, 10)).time_array = [0] ∧
    (data_snapshot paramsS3 state3S3 (0, 10)).time_array ≠ [4, 2, 0] := by
  refine ⟨⟨by decide, by decide, by decide⟩, by decide, by decide⟩

/-- C2 (amended): in scenario S3 (primary node, `B = 3`,
`sampling_rate = 2`, receiver processing `(t=10, x=1)`, `(t=None, x=2)`,
`(t=None, x=3)` from `last_time = 0`) the trace of `last_time` is
`10, 12, 14`, the unwrapped age vector of the final state is `[4, 2, 0]`,
and the snapshot with timewindow `[0, 10]` returns the sub-range of ages
lying within `[0 - 10, 0]`, namely `[0]`. -/
theorem claim_C2 :
    (state1S3.last_time = 10 ∧ state2S3.last_time = 12 ∧ state3S3.last_time = 14) ∧
    ageVector (unwrapTimes paramsS3 state3S3) = [4, 2, 0] ∧
    (data_snapshot paramsS3 state3S3 (0, 10)).time_array = [0] := by
  refine ⟨⟨by decide, by decide, by decide⟩, by decide, by decide⟩

/-- C3 counterexample: on identical buffer contents (`B = 3`, data
`[1,2,3]`, times `[10,12,14]`, full, write index 0) and the same fresh
timewindow `[0, 4]`, the secondary snapshot returns the empty age vector
while the primary snapshot returns `[0]`: the primary path selects for
the transformed window `[0, -4]`, the secondary path for the
untransformed `[0, 4]`, so the two select different index ranges. -/
theorem claim_C3_counterexample :
    (data_snapshot_secondary_channel 3 [1, 2, 3] [10, 12, 14] true 0 (0, 4)).2 = [] ∧
    (data_snapshot ⟨1, 3, 2⟩ ⟨[[1, 2, 3]], [10, 12, 14], 14, 0, 3, true⟩ (0, 4)).time_array
      = [0] ∧
    (([] : List ℚ) ≠ [0]) := by
  refine ⟨by decide, by decide, by decide⟩

/-- C3 (amended): `data_snapshot_secondary` applies the same unwrap, age
transform and range selection as `data_snapshot`, but with the caller's
untransformed timewindow (the transform line is commented out in the
source): on the same buffer contents, the secondary snapshot of a channel
for the window `[e, d]` equals the primary snapshot of that channel for
the pre-transformed window `[e, e - d]` (whose transform restores
`[e, d]`), not the primary snapshot for `[e, d]` itself. -/
theorem claim_C3 (B : ℕ) (data times : List ℚ) (full : Bool) (w cnt : ℕ)
    (lt sr e d : ℚ) :
    data_snapshot_secondary_channel B data times full w (e, d)
      = ((data_snapshot ⟨1, B, sr⟩ ⟨[data], times, lt, w, cnt, full⟩ (e, e - d)).channel_data.headD [],
         (data_snapshot ⟨1, B, sr⟩ ⟨[data], times, lt, w, cnt, full⟩ (e, e - d)).time_array) := by
  have h1 : List.range 1 = [0] := rfl
  simp [data_snapshot_secondary_channel, data_snapshot, unwrapTimes, sub_sub_cancel, h1]

/-- Monotone lists are bounded by their last element. -/
theorem le_getLast_of_chain :
    ∀ (l : List ℚ), l.Chain' (· ≤ ·) → ∀ x : ℚ, l.getLast? = some x →
      ∀ v ∈ l, v ≤ x := by
  intro l
  induction l with
  | nil => intro _ x hx; simp at hx
  | cons a t ih =>
    intro h x hx v hv
    cases t with
    | nil =>
      simp at hx hv
      simp [hv, hx]
    | cons b t2 =>
      rw [List.getLast?_cons_cons] at hx
      have h1 := List.chain'_cons.mp h
      have ihb := ih h1.2 x hx
      rcases List.mem_cons.mp hv with rfl | hv2
      · exact le_trans h1.1 (ihb b (List.mem_cons_self _ _))
      · exact ihb v hv2

/-- The age transform of a monotone non-decreasing time vector yields a
pairwise non-increasing vector. -/
theorem ageVector_pairwise (l : List ℚ) (h : l.Chain' (· ≤ ·)) :
    (ageVector l).Pairwise (fun a b : ℚ => b ≤ a) := by
  have hb : ∀ v ∈ l, v ≤ l.getLastD 0 := by
    intro v hv
    cases hx : l.getLast? with
    | none =>
      rw [List.getLast?_eq_none_iff] at hx
      subst hx; cases hv
    | some x =>
      rw [List.getLastD_eq_getLast?, hx]
      exact le_getLast_of_chain l h x hx v hv
  have hmap : ageVector l = l.map (fun v => l.getLastD 0 - v) := by
    refine List.map_congr_left fun v hv => ?_
    rw [abs_sub_comm, abs_of_nonneg (sub_nonneg.mpr (hb v hv))]
  rw [hmap]
  have hp : l.Pairwise (· ≤ ·) := List.chain'_iff_pairwise.mp h
  exact hp.map _ (fun a b hab => sub_le_sub_left hab _)

/-- Dropping an initial segment strictly inside a list keeps its last
element. -/
theorem getLast?_drop_of_lt :
    ∀ (l : List ℚ) (k : ℕ), k < l.length → (l.drop k).getLast? = l.getLast? := by
  intro l
  induction l with
  | nil => intro k hk; cases hk
  | cons a t ih =>
    intro k hk
    cases k with
    | zero => rfl
    | succ k2 =>
      have hk2 : k2 < t.length := by simpa using hk
      have hdrop : (a :: t).drop (k2 + 1) = t.drop k2 := rfl
      rw [hdrop, ih k2 hk2]
      cases t with
      | nil => cases hk2
      | cons b t2 => rw [List.getLast?_cons_cons]

/-- C4 (amended): whenever the unwrapped time vector of the buffer is
monotone non-decreasing (as for a receiver-filled buffer), the age vector
returned by a snapshot is non-increasing from first to last element — not
non-decreasing as claimed — and when the window ends at the most recent
sample (`end_offset = 0`, `duration ≥ 0`, non-empty buffer) its last
element equals `end_offset`. -/
theorem claim_C4 (p : Params) (s : PrimaryState) (tw : ℚ × ℚ)
    (hmono : (unwrapTimes p s).Chain' (· ≤ ·)) :
    (data_snapshot p s tw).time_array.Chain' (fun a b : ℚ => b ≤ a) ∧
    (tw.1 = 0 → 0 ≤ tw.2 → unwrapTimes p s ≠ [] →
      (data_snapshot p s tw).time_array.getLast? = some tw.1) := by
  have hta : (data_snapshot p s tw).time_array
      = pySlice (ageVector (unwrapTimes p s))
          (find_range (ageVector (unwrapTimes p s)) (tw.1, tw.1 - tw.2)).1
          (find_range (ageVector (unwrapTimes p s)) (tw.1, tw.1 - tw.2)).2 := rfl
  constructor
  · have hp := ageVector_pairwise _ hmono
    have hsub : (data_snapshot p s tw).time_array.Sublist
        (ageVector (unwrapTimes p s)) := by
      rw [hta]
      exact (List.take_sublist _ _).trans (List.drop_sublist _ _)
    exact (hp.sublist hsub).chain'
  · intro h1 h2 hne
    obtain ⟨x, hx⟩ : ∃ x, (unwrapTimes p s).getLast? = some x := by
      cases hxx : (unwrapTimes p s).getLast? with
      | none => rw [List.getLast?_eq_none_iff] at hxx; exact absurd hxx hne
      | some y => exact ⟨y, rfl⟩
    have hlast0 : (ageVector (unwrapTimes p s)).getLast? = some 0 := by
      show ((unwrapTimes p s).map _).getLast? = some 0
      rw [List.getLast?_map, hx]
      simp [List.getLastD_eq_getLast?, hx]
    have h0mem : (0 : ℚ) ∈ ageVector (unwrapTimes p s) := by
      have h0 : (0 : ℚ) ∈ (ageVector (unwrapTimes p s)).getLast? := by
        rw [hlast0]; rfl
      rcases List.mem_getLast?_eq_getLast h0 with ⟨hne2, heq⟩
      rw [heq]; exact List.getLast_mem hne2
    have hpred0 : decide (tw.1 - tw.2 ≤ (0 : ℚ) ∧ (0 : ℚ) ≤ tw.1) = true := by
      simp only [decide_eq_true_eq]
      constructor
      · rw [h1]; linarith
      · rw [h1]
    have hstop : (find_range (ageVector (unwrapTimes p s)) (tw.1, tw.1 - tw.2)).2
        = (ageVector (unwrapTimes p s)).length := by
      simp only [find_range]
      have hrevhead : (ageVector (unwrapTimes p s)).reverse.head? = some 0 := by
        rw [List.head?_reverse, hlast0]
      cases hrev : (ageVector (unwrapTimes p s)).reverse with
      | nil => rw [hrev] at hrevhead; simp at hrevhead
      | cons hh rest =>
        rw [hrev] at hrevhead
        have hh0 : hh = (0 : ℚ) := by
          have := hrevhead
          simp at this
          exact this
        subst hh0
        rw [List.findIdx_cons]
        rw [hpred0]
        simp
    have hstart : (find_range (ageVector (unwrapTimes p s)) (tw.1, tw.1 - tw.2)).1
        < (ageVector (unwrapTimes p s)).length := by
      simp only [find_range]
      exact List.findIdx_lt_length_of_exists ⟨0, h0mem, by exact hpred0⟩
    rw [hta, hstop]
    have hslice : pySlice (ageVector (unwrapTimes p s))
        (find_range (ageVector (unwrapTimes p s)) (tw.1, tw.1 - tw.2)).1
        (ageVector (unwrapTimes p s)).length
        = (ageVector (unwrapTimes p s)).drop
            (find_range (ageVector (unwrapTimes p s)) (tw.1, tw.1 - tw.2)).1 := by
      unfold pySlice
      apply List.take_of_length_le
      rw [List.length_drop]
    rw [hslice, getLast?_drop_of_lt _ _ hstart, hlast0, h1]

/-- The unwrapped time vector of scenario S3 is monotone. -/
theorem chainS3 : (unwrapTimes paramsS3 state3S3).Chain' (· ≤ ·) := by
  rw [(by decide : unwrapTimes paramsS3 state3S3 = [10, 12, 14])]
  refine List.chain'_cons.mpr ⟨by norm_num, List.chain'_cons.mpr ⟨by norm_num, ?_⟩⟩
  exact List.chain'_singleton _

/-- C4 counterexample: for the receiver-filled S3 buffer and the
timewindow `[4, 2]` (with `0 ≤ end` and `dur ≥ 0`), the snapshot returns
the age vector `[4, 2]`, which is not non-decreasing. -/
theorem claim_C4_counterexample :
    ((0 : ℚ) ≤ 4 ∧ (0 : ℚ) ≤ 2) ∧
    (data_snapshot paramsS3 state3S3 (4, 2)).time_array = [4, 2] ∧
    ¬ (data_snapshot paramsS3 state3S3 (4, 2)).time_array.Chain' (· ≤ ·) := by
  refine ⟨⟨by decide, by decide⟩, by decide, fun hch => ?_⟩
  rw [(by decide : (data_snapshot paramsS3 state3S3 (4, 2)).time_array = [4, 2])] at hch
  have h42 := (List.chain'_cons.mp hch).1
  norm_num at h42

/-- Witness for `claim_C4` on the S3 buffer with timewindow `[0, 10]`. -/
theorem claim_C4_witness :
    (unwrapTimes paramsS3 state3S3).Chain' (· ≤ ·) ∧
    ((data_snapshot paramsS3 state3S3 (0, 10)).time_array.Chain' (fun a b : ℚ => b ≤ a) ∧
     (data_snapshot paramsS3 state3S3 (0, 10)).time_array.getLast? = some (0 : ℚ)) :=
  ⟨chainS3,
   (claim_C4 paramsS3 state3S3 (0, 10) chainS3).1,
   (claim_C4 paramsS3 state3S3 (0, 10) chainS3).2 rfl (by decide) (by decide)⟩

/-- The channel list parsed by `analyze_one` for a specifier with a
channel field equals `specChannels`. -/
theorem specChannels_eq (m : PyStr) (h : 1 < (pySplit ':' m).length) :
    specChannels m
      = (if ((pySplit ':' m).getD 1 []).contains ','
          then pySplit ',' ((pySplit ':' m).getD 1 [])
          else [(pySplit ':' m).getD 1 []]) := by
  rcases hsp : pySplit ':' m with _ | ⟨a, _ | ⟨b, r⟩⟩
  · rw [hsp] at h; simp at h
  · rw [hsp] at h; simp at h
  · simp [specChannels, hsp]

/-- C5: every specifier of a metric request is evaluated independently
and produces exactly one reply entry under the key obtained by replacing
`:` and `,` with `_`; a specifier whose metric name is not registered or
that names a channel outside the primary and secondary channel names
produces the literal result `'unknown metric and/or channel'`; a
specifier with a registered name and an all-known channel list is served
with the invocation of the registered function; and the S4 instance:
with registry `{test}`, the request `["nope:x"]` returns
`{nope_x: 'unknown metric and/or channel'}`. -/
theorem claim_C5 :
    (∀ (mn cn cns : List PyStr) (l : List PyStr) (i : ℕ), i < l.length →
      (analyze_metric mn cn cns l)[i]? = some (analyze_one mn cn cns (l.getD i []))) ∧
    (∀ (mn cn cns : List PyStr) (m : PyStr),
      (specName m ∉ mn ∨ ∃ c ∈ specChannels m, c ∉ cn ++ cns) →
      analyze_one mn cn cns m = (pyKey m, .unknown)) ∧
    (∀ (mn cn cns : List PyStr) (m : PyStr),
      specName m ∈ mn → 1 < (pySplit ':' m).length →
      (∀ c ∈ specChannels m, c ∈ cn ++ cns) →
      analyze_one mn cn cns m
        = (pyKey m, .value (specName m) (specChannels m) ((pySplit ':' m).drop 2))) ∧
    analyze_metric ["test".toList] ["x".toList] [] ["nope:x".toList]
      = [("nope_x".toList, .unknown)] := by
  refine ⟨?_, ?_, ?_, ?_⟩
  · intro mn cn cns l i h
    simp [analyze_metric, List.getElem?_map, List.getElem?_eq_getElem h,
      List.getD_eq_getElem?_getD]
  · intro mn cn cns m hbad
    simp only [analyze_one]
    rw [if_neg]
    rintro ⟨hmem, hfound⟩
    rcases hbad with hname | ⟨c, hcmem, hcnot⟩
    · exact hname hmem
    · by_cases hlen : 1 < (pySplit ':' m).length
      · rw [if_pos hlen] at hfound
        simp only [List.all_eq_true] at hfound
        rw [specChannels_eq m hlen] at hcmem
        have := hfound c hcmem
        simp at this
        exact hcnot (List.mem_append.mpr this)
      · rw [if_neg hlen] at hfound
        simp at hfound
  · intro mn cn cns m hmem hlen hch
    simp only [analyze_one]
    rw [if_pos]
    · rw [if_pos hlen]
      rw [specChannels_eq m hlen]
      rfl
    · constructor
      · exact hmem
      · rw [if_pos hlen]
        simp only [List.all_eq_true]
        intro c hc
        have := hch c (by rw [specChannels_eq m hlen]; exact hc)
        simp
        exact List.mem_append.mp this
  · decide

/-- Witness for `claim_C5`: in a request holding the bad specifier
`nope:x` next to the good specifier `test:x`, the bad one yields the
failure entry `nope_x` and the good one is still served as `test_x`. -/
theorem claim_C5_witness :
    (analyze_metric ["test".toList] ["x".toList] [] ["nope:x".toList, "test:x".toList])[0]?
      = some (analyze_one ["test".toList] ["x".toList] []
          (["nope:x".toList, "test:x".toList].getD 0 [])) ∧
    analyze_one ["test".toList] ["x".toList] [] ("nope:x".toList)
      = ("nope_x".toList, .unknown) ∧
    analyze_one ["test".toList] ["x".toList] [] ("test:x".toList)
      = ("test_x".toList, .value ("test".toList) ["x".toList] []) :=
  ⟨claim_C5.1 _ _ _ _ 0 (by decide),
   claim_C5.2.1 _ _ _ _ (Or.inl (by decide)),
   claim_C5.2.2.1 _ _ _ _ (by decide) (by decide) (by decide)⟩

/-- C10: a specifier containing no `:` separator (its split has a single
field) yields `'unknown metric and/or channel'` even when the bare name
is a registered metric, because `channels_found` is set to false whenever
the channel field is missing. -/
theorem claim_C10 (mn cn cns : List PyStr) (l : List PyStr) (i : ℕ)
    (h : i < l.length) (hnc : (pySplit ':' (l.getD i [])).length = 1)
    (hreg : specName (l.getD i []) ∈ mn) :
    (analyze_metric mn cn cns l)[i]? = some (pyKey (l.getD i []), .unknown) := by
  have h1 : analyze_one mn cn cns (l.getD i []) = (pyKey (l.getD i []), .unknown) := by
    simp only [analyze_one]
    rw [if_neg]
    rintro ⟨hmem, hfound⟩
    rw [if_neg (by rw [hnc]; omega)] at hfound
    simp at hfound
  have hD : l.getD i [] = l[i] := by
    simp [List.getD_eq_getElem?_getD, List.getElem?_eq_getElem h]
  rw [hD] at h1
  simp [analyze_metric, List.getElem?_map, List.getElem?_eq_getElem h, h1, hD]

/-- Witness for `claim_C10`: the registered bare name `test` without a
channel list is answered with the failure string. -/
theorem claim_C10_witness :
    ((0 : ℕ) < 1) ∧ (pySplit ':' "test".toList).length = 1 ∧
    specName "test".toList ∈ ["test".toList] ∧
    (analyze_metric ["test".toList] ["x".toList] [] ["test".toList])[0]?
      = some ("test".toList, .unknown) :=
  ⟨by decide, by decide, by decide,
   claim_C10 ["test".toList] ["x".toList] [] ["test".toList] 0
     (by decide) (by decide) (by decide)⟩

/-- C7 counterexample: with `buffer_size_s = 5/2` seconds and
`sampling_rate = 3` Hz the constructor computes the buffer length
`int(5/2 * 3) = 7`, while the ceiling of `5/2 * 3` is `8`. -/
theorem claim_C7_counterexample :
    ((baseNode_init argsC7).map NodeInit.buffer_size).toOption = some (some 7) ∧
    ⌈(5 / 2 : ℚ) * 3⌉ = 8 ∧ ((7 : ℤ) ≠ 8) := by
  refine ⟨by decide, by decide, by decide⟩

/-- C7 (amended): for every primary configuration with a sampling rate
and a channel count, and `buffer_size_s * sampling_rate ≥ 0`, the buffer
length computed at initialization is the floor (Python `int` truncation)
of `buffer_size_s * sampling_rate`, not its ceiling. -/
theorem claim_C7 (a : InitArgs) (sr : ℚ) (nch : ℕ)
    (hp : a.primary_node = true) (hsr : a.sampling_rate = some sr)
    (hn : a.n_channels = some nch) (h0 : 0 ≤ a.buffer_size_s * sr) :
    (baseNode_init a).map NodeInit.buffer_size = .ok (some ⌊a.buffer_size_s * sr⌋) := by
  have hpy : pyInt (a.buffer_size_s * sr) = ⌊a.buffer_size_s * sr⌋ := by
    unfold pyInt
    rw [if_neg (not_lt.mpr h0)]
  cases hcd : a.channel_descriptions with
  | none => simp [baseNode_init, hp, hsr, hn, hcd, hpy, Except.map]
  | some v => simp [baseNode_init, hp, hsr, hn, hcd, hpy, Except.map]

/-- Witness for `claim_C7` at the arguments of the C7 counterexample. -/
theorem claim_C7_witness :
    argsC7.primary_node = true ∧ argsC7.sampling_rate = some 3 ∧
    argsC7.n_channels = some 1 ∧ (0 : ℚ) ≤ argsC7.buffer_size_s * 3 ∧
    (baseNode_init argsC7).map NodeInit.buffer_size
      = .ok (some ⌊argsC7.buffer_size_s * 3⌋) :=
  ⟨rfl, rfl, rfl, by decide, claim_C7 argsC7 3 1 rfl rfl rfl (by decide)⟩

/-- C8: constructing a node with `primary_node = false` always fails with
an attribute error: `self.channel_descriptions` is assigned only in the
primary branch yet read unconditionally when defaulting channel
descriptions, so a purely secondary node can never be instantiated. -/
theorem claim_C8 (a : InitArgs) (hp : a.primary_node = false) :
    baseNode_init a = .error (.attributeError "channel_descriptions".toList) := by
  simp [baseNode_init, hp]

/-- Witness for `claim_C8` on a concrete secondary-only configuration. -/
theorem claim_C8_witness :
    argsC8.primary_node = false ∧
    baseNode_init argsC8 = .error (.attributeError "channel_descriptions".toList) :=
  ⟨rfl, claim_C8 argsC8 rfl⟩

/-- On a primary node the caller's timewindow list comes back from
`get_data` with `timewindow[1]` overwritten by
`timewindow[0] - timewindow[1]`. -/
theorem get_data_timewindow (n : Node) (req : List PyStr) (tw : ℚ × ℚ)
    (hp : n.primary_node = true) :
    (get_data n req tw).2 = (tw.1, tw.1 - tw.2) := by
  simp [get_data, hp, data_snapshot]

/-- C9: `data_snapshot` overwrites `timewindow[1]` with
`timewindow[0] - timewindow[1]` in place, so on a node with both primary
and secondary data `get_data` and `analyze_metric` pass the
already-transformed window `[end, end - dur]` to
`data_snapshot_secondary` instead of the caller's original `[end, dur]`,
the caller's window object holds `[end, end - dur]` after the call (and
is restored to `[end, dur]` by a second call sharing it), and the
transformed window differs from the original, as at `[0, 10]` against
`[0, -10]`. -/
theorem claim_C9 :
    (∀ (n : Node) (req : List PyStr) (tw : ℚ × ℚ), n.primary_node = true →
      (get_data n req tw).2 = (tw.1, tw.1 - tw.2)) ∧
    (∀ (n : Node) (req : List PyStr) (tw : ℚ × ℚ) (cn : PyStr),
      n.primary_node = true → n.secondary_data = true →
      cn ∈ req → cn ∈ n.channel_names_secondary →
      (cn, ((data_snapshot_secondary n.n_channels_secondary n.buffer_size_secondary
               n.sstate (tw.1, tw.1 - tw.2)).1.getD
               (get_channel_index n.channel_names_secondary cn) [],
            (data_snapshot_secondary n.n_channels_secondary n.buffer_size_secondary
               n.sstate (tw.1, tw.1 - tw.2)).2.getD
               (get_channel_index n.channel_names_secondary cn) []))
        ∈ (get_data n req tw).1) ∧
    (∀ (n : Node) (l : List PyStr) (tw : ℚ × ℚ), n.primary_node = true →
      n.secondary_data = true →
      (analyze_metric_full n l tw).2.1.2
        = some (data_snapshot_secondary n.n_channels_secondary n.buffer_size_secondary
            n.sstate (tw.1, tw.1 - tw.2)) ∧
      (analyze_metric_full n l tw).2.2 = (tw.1, tw.1 - tw.2)) ∧
    (∀ (n : Node) (req : List PyStr) (tw : ℚ × ℚ), n.primary_node = true →
      (get_data n req (get_data n req tw).2).2 = tw) ∧
    ((get_data nodeC9 ["s".toList] (0, 10)).2 = (0, -10) ∧
      ((0 : ℚ), (-10 : ℚ)) ≠ ((0 : ℚ), (10 : ℚ))) := by
  refine ⟨get_data_timewindow, ?_, ?_, ?_, ?_, by decide⟩
  · intro n req tw cn hp hsd hreq hmem
    have htw : (data_snapshot n.params n.pstate tw).timewindow = (tw.1, tw.1 - tw.2) := rfl
    simp only [get_data, hp, if_true, hsd]
    refine List.mem_flatMap.mpr ⟨cn, hreq, ?_⟩
    refine List.mem_append.mpr (Or.inr ?_)
    rw [if_pos hmem]
    simp [htw]
  · intro n l tw hp hsd
    constructor
    · simp [analyze_metric_full, hp, hsd, data_snapshot]
    · simp [analyze_metric_full, hp, data_snapshot]
  · intro n req tw hp
    rw [get_data_timewindow _ _ _ hp, get_data_timewindow _ _ _ hp]
    simp [sub_sub_cancel]
  · decide

/-- Witness for `claim_C9` on a concrete node with both primary and
secondary data, requesting the secondary channel `s` with timewindow
`[0, 10]`. -/
theorem claim_C9_witness :
    nodeC9.primary_node = true ∧ nodeC9.secondary_data = true ∧
    "s".toList ∈ ["s".toList] ∧ "s".toList ∈ nodeC9.channel_names_secondary ∧
    (get_data nodeC9 ["s".toList] (0, 10)).2 = ((0 : ℚ), (0 : ℚ) - 10) ∧
    (("s".toList,
       ((data_snapshot_secondary nodeC9.n_channels_secondary nodeC9.buffer_size_secondary
           nodeC9.sstate ((0 : ℚ), (0 : ℚ) - 10)).1.getD
           (get_channel_index nodeC9.channel_names_secondary "s".toList) [],
        (data_snapshot_secondary nodeC9.n_channels_secondary nodeC9.buffer_size_secondary
           nodeC9.sstate ((0 : ℚ), (0 : ℚ) - 10)).2.getD
           (get_channel_index nodeC9.channel_names_secondary "s".toList) []))
      ∈ (get_data nodeC9 ["s".toList] (0, 10)).1) ∧
    (analyze_metric_full nodeC9 [] (0, 10)).2.2 = ((0 : ℚ), (0 : ℚ) - 10) ∧
    (get_data nodeC9 ["s".toList] (get_data nodeC9 ["s".toList] (0, 10)).2).2
      = ((0 : ℚ), (10 : ℚ)) :=
  ⟨rfl, rfl, by decide, by decide,
   claim_C9.1 nodeC9 ["s".toList] (0, 10) rfl,
   claim_C9.2.1 nodeC9 ["s".toList] (0, 10) ("s".toList) rfl rfl (by decide) (by decide),
   (claim_C9.2.2.1 nodeC9 [] (0, 10) rfl rfl).2,
   claim_C9.2.2.2.1 nodeC9 ["s".toList] (0, 10) rfl⟩
